import Mathlib

/-!
Verification model of the `MTRDevice` per-node device shadow
(`src/darwin/Framework/CHIP/MTRDevice.mm`).

The definitions below are a shallow embedding of the Objective-C source:
attribute data-value dictionaries become a small object language
(`MTRObject`), the expected-value cache and the cluster data store become
explicit state records, and each embedded method keeps the branch structure
of its source counterpart.  Times are modelled as natural numbers (seconds
for the subscription engine, milliseconds for timed invokes); dispatch
queues and locks are erased since every embedded method runs under the
device lock.
-/

set_option linter.unusedVariables false

namespace MTRDeviceModel

/-! ### Objective-C value objects

Attribute values cross the `MTRDevice` API as `NSDictionary`-based
"data-value dictionaries" (keys `MTRTypeKey`, `MTRValueKey`,
`MTRDataVersionKey`, `MTRDataKey`, ...).  `MTRObject` models the plist-like
object graphs involved; `isEqual:` on these objects is structural equality.
-/

mutual

inductive MTRObject where
  | number (n : Nat)
  | str (s : String)
  | array (items : MTRObjectList)
  | dictionary (entries : MTREntryList)
deriving DecidableEq

inductive MTRObjectList where
  | nil
  | cons (head : MTRObject) (tail : MTRObjectList)
deriving DecidableEq

inductive MTREntryList where
  | nil
  | cons (key : String) (val : MTRObject) (tail : MTREntryList)
deriving DecidableEq

end

/-- Entry-list lookup used by `MTRObject.lookup`. -/
def MTREntryList.find : MTREntryList → String → Option MTRObject
  | .nil, _ => none
  | .cons k v tail, key => if k = key then some v else tail.find key

/-- Dictionary subscripting `obj[key]`: first matching entry, `none` when the
object is not a dictionary or lacks the key (messaging `nil` in the source
likewise yields `nil`). -/
def MTRObject.lookup : MTRObject → String → Option MTRObject
  | .dictionary entries, key => entries.find key
  | _, _ => none

/-- Number of elements of an embedded `NSArray`. -/
def MTRObjectList.length : MTRObjectList → Nat
  | .nil => 0
  | .cons _ tail => tail.length + 1

/-- Conversion to a Lean list, used to state properties about embedded
`NSArray` contents. -/
def MTRObjectList.toList : MTRObjectList → List MTRObject
  | .nil => []
  | .cons head tail => head :: tail.toList

/-- The dictionary keys used by the attribute-reporting API
(`MTRTypeKey`, `MTRValueKey`, `MTRDataKey`, `MTRDataVersionKey`).  Their
concrete spellings are irrelevant to the embedded logic; only distinctness
matters. -/
def MTRTypeKey : String := "type"

/-- Key of the payload entry of a data-value dictionary. -/
def MTRValueKey : String := "value"

/-- Key wrapping each element of an array-typed data value. -/
def MTRDataKey : String := "data"

/-- Key carrying the cluster data version on a reported value. -/
def MTRDataVersionKey : String := "dataVersion"

/-- Type-tag string for array-typed data values (`MTRArrayValueType`). -/
def MTRArrayValueType : String := "Array"

/-- Type-tag string for unsigned-integer data values
(`MTRUnsignedIntegerValueType`). -/
def MTRUnsignedIntegerValueType : String := "UnsignedInteger"

/-- Embedding of `-[MTRDevice _attributeDataValue:isEqualToDataValue:]`
(MTRDevice.mm:2417): two possibly-`nil` data-value dictionaries are equal
when both are `nil`; unequal when exactly one is `nil`; otherwise equal when
their `MTRTypeKey` entries are `isEqual:` (messaging a `nil` type returns
`NO`, so both must be present and equal) and their `MTRValueKey` entries are
pointer-equal (covers the both-`nil` case) or `isEqual:`. -/
def attributeDataValueEqual (one theOther : Option MTRObject) : Bool :=
  match one, theOther with
  | none, none => true
  | none, some _ => false
  | some _, none => false
  | some a, some b =>
    (match a.lookup MTRTypeKey, b.lookup MTRTypeKey with
     | some ta, some tb => ta = tb
     | _, _ => false)
    && (a.lookup MTRValueKey = b.lookup MTRValueKey)

/-- Embedding of `-[MTRDevice _dataValueWithoutDataVersion:]`
(MTRDevice.mm:2434): rebuilds the dictionary keeping only the `MTRTypeKey`
and (when present) `MTRValueKey` entries; inputs without a type entry are
returned unchanged. -/
def dataValueWithoutDataVersion (attributeValue : MTRObject) : MTRObject :=
  match attributeValue.lookup MTRTypeKey with
  | none => attributeValue
  | some ty =>
    match attributeValue.lookup MTRValueKey with
    | some v => .dictionary (.cons MTRTypeKey ty (.cons MTRValueKey v .nil))
    | none => .dictionary (.cons MTRTypeKey ty .nil)

/-! ### Identifiers and paths -/

/-- An attribute path `(endpoint, cluster, attribute)`. -/
abbrev AttributePath : Type := Nat × Nat × Nat

/-- A cluster path `(endpoint, cluster)`. -/
abbrev ClusterPath : Type := Nat × Nat

/-- Cluster path of an attribute path, as built by
`[MTRClusterPath clusterPathWithEndpointID:path.endpoint clusterID:path.cluster]`. -/
def clusterPathOf (path : AttributePath) : ClusterPath := (path.1, path.2.1)

/-! ### Subscription backoff (`_handleSubscriptionReset:` and
`_handleSubscriptionEstablished`, MTRDevice.mm:939 and MTRDevice.mm:883) -/

/-- `MTRDEVICE_SUBSCRIPTION_ATTEMPT_MIN_WAIT_SECONDS` (MTRDevice.mm:309). -/
def MTRDEVICE_SUBSCRIPTION_ATTEMPT_MIN_WAIT_SECONDS : Nat := 1

/-- `MTRDEVICE_SUBSCRIPTION_ATTEMPT_MAX_WAIT_SECONDS` (MTRDevice.mm:310). -/
def MTRDEVICE_SUBSCRIPTION_ATTEMPT_MAX_WAIT_SECONDS : Nat := 3600

/-- Result of one run of the backoff computation in
`_handleSubscriptionReset:`: the new `_lastSubscriptionAttemptWait` and the
`secondsToWait` passed to `dispatch_after` for the reattempt. -/
structure SubscriptionResetOutcome where
  lastSubscriptionAttemptWait : Nat
  secondsToWait : Nat
deriving DecidableEq, Repr

/-- Embedding of the wait computation of `_handleSubscriptionReset:`
(MTRDevice.mm:965): if the stored wait is below the 1 s minimum it becomes
the minimum and that is waited; otherwise a server-provided `retryDelay`
resets the stored wait to 0 and is waited verbatim; otherwise the stored
wait doubles, clamped to the 3600 s maximum, and is waited.  Wait times are
in whole seconds. -/
def handleSubscriptionResetWait (lastSubscriptionAttemptWait : Nat)
    (retryDelay : Option Nat) : SubscriptionResetOutcome :=
  if lastSubscriptionAttemptWait < MTRDEVICE_SUBSCRIPTION_ATTEMPT_MIN_WAIT_SECONDS then
    { lastSubscriptionAttemptWait := MTRDEVICE_SUBSCRIPTION_ATTEMPT_MIN_WAIT_SECONDS
      secondsToWait := MTRDEVICE_SUBSCRIPTION_ATTEMPT_MIN_WAIT_SECONDS }
  else
    match retryDelay with
    | some d =>
      { lastSubscriptionAttemptWait := 0, secondsToWait := d }
    | none =>
      let doubled := lastSubscriptionAttemptWait * 2
      let clamped :=
        if doubled > MTRDEVICE_SUBSCRIPTION_ATTEMPT_MAX_WAIT_SECONDS then
          MTRDEVICE_SUBSCRIPTION_ATTEMPT_MAX_WAIT_SECONDS
        else doubled
      { lastSubscriptionAttemptWait := clamped, secondsToWait := clamped }

/-- Guard structure of `_handleSubscriptionReset:` (MTRDevice.mm:949): with
no delegate, or while a reattempt is already scheduled, nothing is scheduled
and the stored wait is unchanged. -/
def handleSubscriptionReset (hasDelegate reattemptingSubscription : Bool)
    (lastSubscriptionAttemptWait : Nat) (retryDelay : Option Nat) :
    Option SubscriptionResetOutcome :=
  if !hasDelegate then none
  else if reattemptingSubscription then none
  else some (handleSubscriptionResetWait lastSubscriptionAttemptWait retryDelay)

/-- Effect of `_handleSubscriptionEstablished` (MTRDevice.mm:888) on the
stored wait: `_lastSubscriptionAttemptWait = 0`. -/
def handleSubscriptionEstablishedWait (lastSubscriptionAttemptWait : Nat) : Nat := 0

/-- Stored wait counter after `k` consecutive failures with no
server-provided delay, starting from counter `w0` (each failure runs the
backoff computation and stores its new wait). -/
def waitCounterAfterFailures (w0 : Nat) : Nat → Nat
  | 0 => w0
  | k + 1 =>
    (handleSubscriptionResetWait (waitCounterAfterFailures w0 k) none).lastSubscriptionAttemptWait

/-! ### Expected-value cache (`_expectedValueCache`)

Each cache entry is the `@[expirationTime, value, expectedValueID]` array
stored by `_setExpectedValue:...` (MTRDevice.mm:2726).  Expiration times are
absolute instants in model time (`Nat`); the `NSDate` comparison
`[now compare:expiration] == NSOrderedDescending` becomes `now > expiration`.
-/

/-- One `_expectedValueCache` entry: expiration instant, data value,
generation id (`MTRDeviceExpectedValueField{ExpirationTime,Value,ID}Index`). -/
structure ExpectedValueEntry where
  expirationTime : Nat
  value : MTRObject
  expectedValueID : Nat
deriving DecidableEq

/-- The state the expected-value operations act on: the expected-value cache
plus the read cache visible through `_cachedAttributeValueForPath:` (the
cluster-store lookup; the expected-value operations never write to it, so it
appears here as an abstract map). -/
structure DeviceState where
  expectedValueCache : AttributePath → Option ExpectedValueEntry
  readCache : AttributePath → Option MTRObject

/-- Pointwise update of a dictionary modelled as a function, as performed by
`_expectedValueCache[attributePath] = ...` (storing `none` deletes the
entry). -/
def updateMap {α β : Type} [DecidableEq α] (m : α → Option β) (k : α) (v : Option β) :
    α → Option β :=
  fun p => if p = k then v else m p

/-- Output of `_setExpectedValue:attributePath:expirationTime:shouldReportValue:attributeValueToReport:expectedValueID:previousValue:`:
the updated state plus the three out-parameters. -/
structure SetExpectedValueResult where
  state : DeviceState
  shouldReportValue : Bool
  attributeValueToReport : Option MTRObject
  previousValue : Option MTRObject

/-- Embedding of `-[MTRDevice _setExpectedValue:...]` (MTRDevice.mm:2674).
With a non-`nil` `expectedAttributeValue` the entry at `attributePath` is
(re)written with the given expiration and id, reporting the new value when
it differs from the prior expected value (or from the read cache when no
prior expected value exists).  With a `nil` `expectedAttributeValue` the
prior entry is examined: when its id matches `expectedValueID` and its value
differs from the read cache, the cache value is reported and the entry
removed; in every other case (id mismatch, or value equal to the read
cache) the cache is left untouched.  Callers of the removal path pass a
`nil` expiration, which the source never reads; the model passes 0. -/
def setExpectedValue (st : DeviceState) (expectedAttributeValue : Option MTRObject)
    (attributePath : AttributePath) (expirationTime : Nat) (expectedValueID : Nat) :
    SetExpectedValueResult :=
  let base : SetExpectedValueResult :=
    match st.expectedValueCache attributePath with
    | some previousExpectedValue =>
      match expectedAttributeValue with
      | some newValue =>
        if !attributeDataValueEqual (some newValue) (some previousExpectedValue.value) then
          { state := st, shouldReportValue := true,
            attributeValueToReport := some newValue,
            previousValue := some previousExpectedValue.value }
        else
          { state := st, shouldReportValue := false,
            attributeValueToReport := none, previousValue := none }
      | none =>
        if previousExpectedValue.expectedValueID = expectedValueID then
          let cachedValue := st.readCache attributePath
          if !attributeDataValueEqual (some previousExpectedValue.value) cachedValue then
            { state :=
                { st with expectedValueCache :=
                    updateMap st.expectedValueCache attributePath none }
              shouldReportValue := true
              attributeValueToReport := cachedValue
              previousValue := some previousExpectedValue.value }
          else
            { state := st, shouldReportValue := false,
              attributeValueToReport := none, previousValue := none }
        else
          { state := st, shouldReportValue := false,
            attributeValueToReport := none, previousValue := none }
    | none =>
      match expectedAttributeValue with
      | some newValue =>
        let cachedValue := st.readCache attributePath
        if !attributeDataValueEqual (some newValue) cachedValue then
          { state := st, shouldReportValue := true,
            attributeValueToReport := some newValue, previousValue := cachedValue }
        else
          { state := st, shouldReportValue := false,
            attributeValueToReport := none, previousValue := none }
      | none =>
        { state := st, shouldReportValue := false,
          attributeValueToReport := none, previousValue := none }
  match expectedAttributeValue with
  | some newValue =>
    let entry : ExpectedValueEntry :=
      { expirationTime := expirationTime, value := newValue,
        expectedValueID := expectedValueID }
    let newCache := updateMap base.state.expectedValueCache attributePath (some entry)
    { base with state := { base.state with expectedValueCache := newCache } }
  | none => base

/-- Embedding of `-[MTRDevice _attributeValueDictionaryForAttributePath:]`
(MTRDevice.mm:2387): consult the expected-value cache first; an expired
entry (`now` strictly past its expiration) is purged in place and the read
cache is consulted instead; an unexpired entry's value is returned;
otherwise the read-cache value (possibly `nil`) is returned.  Returns the
updated state and the value. -/
def attributeValueDictionaryForAttributePath (st : DeviceState) (now : Nat)
    (attributePath : AttributePath) : DeviceState × Option MTRObject :=
  match st.expectedValueCache attributePath with
  | some expectedValue =>
    if now > expectedValue.expirationTime then
      let purged : DeviceState :=
        { st with expectedValueCache :=
            updateMap st.expectedValueCache attributePath none }
      (purged, purged.readCache attributePath)
    else
      (st, some expectedValue.value)
  | none => (st, st.readCache attributePath)

/-- State effect of `-[MTRDevice _checkExpiredExpectedValues]`
(MTRDevice.mm:2316): every entry whose expiration is strictly before `now`
is removed (reports and timer rescheduling do not touch the caches). -/
def checkExpiredExpectedValues (st : DeviceState) (now : Nat) : DeviceState :=
  { st with expectedValueCache := fun p =>
      match st.expectedValueCache p with
      | some entry => if now > entry.expirationTime then none else some entry
      | none => none }

/-- Embedding of `-[MTRDevice _removeExpectedValueForAttributePath:expectedValueID:]`
(MTRDevice.mm:2816): runs `_setExpectedValue` with a `nil` value. -/
def removeExpectedValueForAttributePath (st : DeviceState)
    (attributePath : AttributePath) (expectedValueID : Nat) : DeviceState :=
  (setExpectedValue st none attributePath 0 expectedValueID).state

/-- One step of the expected-value workload of claim C1: an insertion (one
entry of a `setExpectedValues:` batch), a removal by generation, or an
expiry sweep. -/
inductive ExpectedValueOp where
  | insert (path : AttributePath) (value : MTRObject) (expirationTime : Nat) (id : Nat)
  | remove (path : AttributePath) (id : Nat)
  | sweep (now : Nat)

/-- Apply one `ExpectedValueOp` through the embedded operations. -/
def applyExpectedValueOp (st : DeviceState) : ExpectedValueOp → DeviceState
  | .insert path value expirationTime id =>
    (setExpectedValue st (some value) path expirationTime id).state
  | .remove path id => removeExpectedValueForAttributePath st path id
  | .sweep now => checkExpiredExpectedValues st now

/-- Apply a sequence of expected-value operations in order. -/
def applyExpectedValueOps (st : DeviceState) (ops : List ExpectedValueOp) : DeviceState :=
  ops.foldl applyExpectedValueOp st

/-! ### Batch insertion of expected values
(`_getAttributesToReportWithNewExpectedValues:` MTRDevice.mm:2731, used by
`setExpectedValues:` and by write/invoke) -/

/-- Embedding of the state effect of
`-[MTRDevice _getAttributesToReportWithNewExpectedValues:expirationTime:expectedValueID:]`:
a single generation id `_expectedValueNextID++` is allocated, and each
`(path, value)` pair runs `_setExpectedValue` with that id and the shared
expiration.  Returns the final state, the incremented id counter and the
allocated generation. -/
def getAttributesToReportWithNewExpectedValues (st : DeviceState)
    (expectedValueNextID : Nat) (values : List (AttributePath × MTRObject))
    (expirationTime : Nat) : DeviceState × Nat × Nat :=
  let expectedValueIDToReturn := expectedValueNextID
  let finalState := values.foldl
    (fun s pv => (setExpectedValue s (some pv.2) pv.1 expirationTime expectedValueIDToReturn).state)
    st
  (finalState, expectedValueNextID + 1, expectedValueIDToReturn)

/-! ### Expected values on `invokeCommand` (MTRDevice.mm:2140) -/

/-- Embedding of `MTRClampedNumber(value, min, max)`. -/
def MTRClampedNumber (v lo hi : Int) : Int :=
  if v < lo then lo else if v > hi then hi else v

/-- Embedding of the expected-value preprocessing at the top of
`-[MTRDevice _invokeCommandWithEndpointID:...]` (MTRDevice.mm:2140): when
`expectedValueInterval` is `nil` or compares `NSOrderedAscending` to 0
(that is, is negative), `expectedValues` is discarded; otherwise the
interval is clamped into `[1, UINT32_MAX]` and the expected values are
kept.  Returns the surviving expected values and the clamped interval. -/
def invokeCommandExpectedValuePreprocessing
    (expectedValues : Option (List (AttributePath × MTRObject)))
    (expectedValueInterval : Option Int) :
    Option (List (AttributePath × MTRObject)) × Option Int :=
  match expectedValueInterval with
  | none => (none, none)
  | some i =>
    if i < 0 then (none, some i)
    else (expectedValues, some (MTRClampedNumber i 1 4294967295))

/-! ### Cluster data store (`MTRDeviceClusterData`, `_clusterDataToPersist`,
`_persistedClusterData`, `_persistedClusters`) -/

/-- Lookup in an association list modelling an `NSDictionary`. -/
def assocFind {α β : Type} [DecidableEq α] : List (α × β) → α → Option β
  | [], _ => none
  | (k, v) :: rest, key => if k = key then some v else assocFind rest key

/-- Keyed store into an association list modelling an `NSDictionary`. -/
def assocStore {α β : Type} [DecidableEq α] : List (α × β) → α → β → List (α × β)
  | [], key, v => [(key, v)]
  | (k, w) :: rest, key, v =>
    if k = key then (k, v) :: rest else (k, w) :: assocStore rest key v

/-- Keyed removal from an association list modelling an `NSDictionary`. -/
def assocErase {α β : Type} [DecidableEq α] : List (α × β) → α → List (α × β)
  | [], _ => []
  | (k, w) :: rest, key => if k = key then rest else (k, w) :: assocErase rest key

/-- One `MTRDeviceClusterData`: the cluster's data version and its attribute
values (values stored without their data version). -/
structure MTRDeviceClusterData where
  dataVersion : Option Nat
  attributes : List (Nat × MTRObject)
deriving DecidableEq

/-- Embedding of `-[MTRDeviceClusterData storeValue:forAttribute:]`
(MTRDevice.mm:194): `_attributes[attribute] = value;`, the keyed-subscript
assignment on the `NSMutableDictionary` of attribute values, which stores
the data-value dictionary under the attribute id and removes the entry when
`value` is `nil`. -/
def MTRDeviceClusterData.storeValue (clusterData : MTRDeviceClusterData)
    (value : Option MTRObject) (attributeID : Nat) : MTRDeviceClusterData :=
  match value with
  | some v => { clusterData with attributes := assocStore clusterData.attributes attributeID v }
  | none => { clusterData with attributes := assocErase clusterData.attributes attributeID }

/-- The three cluster-store containers of `MTRDevice`: the dirty map
`_clusterDataToPersist` (absent until first created), the paged-in mirror
`_persistedClusterData`, and the set of keys known to exist in storage
`_persistedClusters`. -/
structure ClusterStore where
  clusterDataToPersist : Option (List (ClusterPath × MTRDeviceClusterData))
  persistedClusterData : List (ClusterPath × MTRDeviceClusterData)
  persistedClusters : List ClusterPath
deriving DecidableEq

/-- Store into the dirty map, creating it when absent, as in
`if (_clusterDataToPersist == nil) _clusterDataToPersist = [NSMutableDictionary dictionary];
_clusterDataToPersist[clusterPath] = clusterData;`. -/
def ClusterStore.storeDirty (store : ClusterStore) (clusterPath : ClusterPath)
    (clusterData : MTRDeviceClusterData) : ClusterStore :=
  match store.clusterDataToPersist with
  | some dirty =>
    { store with clusterDataToPersist := some (assocStore dirty clusterPath clusterData) }
  | none => { store with clusterDataToPersist := some [(clusterPath, clusterData)] }

/-- Tail of `-[MTRDevice _clusterDataForPath:]` (MTRDevice.mm:1270) past the
dirty map: the paged-in mirror `_persistedClusterData`, then a load from
`storage` iff the path is in `_persistedClusters` (paging the loaded record
into the mirror).  Returns the possibly-updated store and the record found.
The source hands out the live mutable record; the model copies, which is
observationally equal because every mutation is re-stored into the dirty
map, which shadows the mirror on lookup. -/
def clusterDataForPathPersisted (store : ClusterStore)
    (storage : ClusterPath → Option MTRDeviceClusterData) (clusterPath : ClusterPath) :
    ClusterStore × Option MTRDeviceClusterData :=
  match assocFind store.persistedClusterData clusterPath with
  | some data => (store, some data)
  | none =>
    if clusterPath ∈ store.persistedClusters then
      match storage clusterPath with
      | some data =>
        ({ store with persistedClusterData :=
            assocStore store.persistedClusterData clusterPath data }, some data)
      | none => (store, none)
    else (store, none)

/-- Embedding of the full `_clusterDataForPath:` lookup chain: dirty map
first, then `clusterDataForPathPersisted`. -/
def clusterDataForPath (store : ClusterStore)
    (storage : ClusterPath → Option MTRDeviceClusterData) (clusterPath : ClusterPath) :
    ClusterStore × Option MTRDeviceClusterData :=
  match store.clusterDataToPersist with
  | some dirty =>
    match assocFind dirty clusterPath with
    | some data => (store, some data)
    | none => clusterDataForPathPersisted store storage clusterPath
  | none => clusterDataForPathPersisted store storage clusterPath

/-- Embedding of `-[MTRDevice _cachedAttributeValueForPath:]`
(MTRDevice.mm:1337): the attribute entry of the cluster record found by
`_clusterDataForPath:`. -/
def cachedAttributeValueForPath (store : ClusterStore)
    (storage : ClusterPath → Option MTRDeviceClusterData) (path : AttributePath) :
    ClusterStore × Option MTRObject :=
  let r := clusterDataForPath store storage (clusterPathOf path)
  match r.2 with
  | none => (r.1, none)
  | some clusterData => (r.1, assocFind clusterData.attributes path.2.2)

/-- Embedding of `-[MTRDevice _setCachedAttributeValue:forPath:]`
(MTRDevice.mm:1352): fetch (or, for a non-`nil` value, create) the cluster
record, store the attribute value into it, and put the record into the
dirty map. -/
def setCachedAttributeValue (store : ClusterStore)
    (storage : ClusterPath → Option MTRDeviceClusterData) (value : Option MTRObject)
    (path : AttributePath) : ClusterStore :=
  let clusterPath := clusterPathOf path
  let r := clusterDataForPath store storage clusterPath
  match r.2 with
  | none =>
    match value with
    | none => r.1
    | some _ =>
      let clusterData : MTRDeviceClusterData := { dataVersion := none, attributes := [] }
      (r.1).storeDirty clusterPath (clusterData.storeValue value path.2.2)
  | some clusterData =>
    (r.1).storeDirty clusterPath (clusterData.storeValue value path.2.2)

/-- Embedding of `-[MTRDevice _noteDataVersion:forClusterPath:]`
(MTRDevice.mm:2449): when no cluster record exists a fresh one is created
with the new version; when the stored version differs (`isEqualToNumber:`
messaged on a `nil` stored version returns `NO`, so a missing version
always differs) it is overwritten; in either changed case the record is put
into the dirty map, otherwise nothing changes. -/
def noteDataVersion (store : ClusterStore)
    (storage : ClusterPath → Option MTRDeviceClusterData) (dataVersion : Nat)
    (clusterPath : ClusterPath) : ClusterStore :=
  let r := clusterDataForPath store storage clusterPath
  match r.2 with
  | none =>
    let clusterData : MTRDeviceClusterData := { dataVersion := some dataVersion, attributes := [] }
    (r.1).storeDirty clusterPath clusterData
  | some clusterData =>
    if clusterData.dataVersion ≠ some dataVersion then
      (r.1).storeDirty clusterPath { clusterData with dataVersion := some dataVersion }
    else r.1

/-- The data version the incoming reported value carries:
`attributeDataValue[MTRDataVersionKey]`, typed `NSNumber *` in the source. -/
def reportedDataVersion (attributeDataValue : MTRObject) : Option Nat :=
  match attributeDataValue.lookup MTRDataVersionKey with
  | some (.number n) => some n
  | _ => none

/-- Embedding of the cluster-store effect of one no-error entry of
`-[MTRDevice _getAttributesToReportWithReportedValues:]`
(MTRDevice.mm:2532): extract the carried data version and strip it from the
cached form; fetch the previous cached value; when the stripped value
differs from the cached value, note the data version (only when one was
carried) and store the new value; otherwise leave the store untouched.
Report emission, expected-value filtering and the uptime estimation of the
same loop do not touch the cluster store and are modelled separately. -/
def ingestReportedAttributeNoError (store : ClusterStore)
    (storage : ClusterPath → Option MTRDeviceClusterData) (path : AttributePath)
    (reportedValue : MTRObject) : ClusterStore :=
  let dataVersion := reportedDataVersion reportedValue
  let clusterPath := clusterPathOf path
  let attributeDataValue :=
    match dataVersion with
    | some _ => dataValueWithoutDataVersion reportedValue
    | none => reportedValue
  let r := cachedAttributeValueForPath store storage path
  let previousValue := r.2
  let readCacheValueChanged := !attributeDataValueEqual (some attributeDataValue) previousValue
  if readCacheValueChanged then
    let store2 :=
      match dataVersion with
      | some v => noteDataVersion r.1 storage v clusterPath
      | none => r.1
    setCachedAttributeValue store2 storage (some attributeDataValue) path
  else r.1

/-- Observable data version of a cluster, as seen through
`_clusterDataForPath:`. -/
def observedClusterDataVersion (store : ClusterStore)
    (storage : ClusterPath → Option MTRDeviceClusterData) (clusterPath : ClusterPath) :
    Option Nat :=
  match (clusterDataForPath store storage clusterPath).2 with
  | some clusterData => clusterData.dataVersion
  | none => none

/-- Whether a cluster is marked dirty (queued for persistence at report
end). -/
def clusterMarkedDirty (store : ClusterStore) (clusterPath : ClusterPath) : Bool :=
  match store.clusterDataToPersist with
  | some dirty => (assocFind dirty clusterPath).isSome
  | none => false

/-! ### Changes-omitted quality (`AttributeHasChangesOmittedQuality`,
MTRDevice.mm:1683)

The cluster and attribute id constants come from the generated Matter
cluster-constants header (not part of the provided sources); the numeric
values are the standard Matter ids the `MTRCluster...ID` macros expand to.
-/

/-- Ethernet Network Diagnostics cluster id. -/
def MTRClusterEthernetNetworkDiagnosticsID : Nat := 0x37

/-- General Diagnostics cluster id. -/
def MTRClusterGeneralDiagnosticsID : Nat := 0x33

/-- Thread Network Diagnostics cluster id. -/
def MTRClusterThreadNetworkDiagnosticsID : Nat := 0x35

/-- Wi-Fi Network Diagnostics cluster id. -/
def MTRClusterWiFiNetworkDiagnosticsID : Nat := 0x36

/-- Operational Credentials cluster id. -/
def MTRClusterOperationalCredentialsID : Nat := 0x3E

/-- Power Source cluster id. -/
def MTRClusterPowerSourceID : Nat := 0x2F

/-- Time Synchronization cluster id. -/
def MTRClusterTimeSynchronizationID : Nat := 0x38

/-- General Diagnostics UpTime attribute id. -/
def MTRClusterGeneralDiagnosticsAttributeUpTimeID : Nat := 0x2

/-- Embedding of `AttributeHasChangesOmittedQuality(attributePath)`
(MTRDevice.mm:1683): the hard-coded per-cluster lists of attributes with
the Changes Omitted quality (Ethernet/General/Thread/Wi-Fi diagnostic
counters, NOC list and trusted roots, power-source metering, UTC/local
time). -/
def AttributeHasChangesOmittedQuality (attributePath : AttributePath) : Bool :=
  let cluster := attributePath.2.1
  let attr := attributePath.2.2
  if cluster = MTRClusterEthernetNetworkDiagnosticsID then
    [0x2, 0x3, 0x4, 0x5, 0x6, 0x7, 0x8].contains attr
  else if cluster = MTRClusterGeneralDiagnosticsID then
    [0x2, 0x3].contains attr
  else if cluster = MTRClusterThreadNetworkDiagnosticsID then
    [0x6, 0xE, 0xF, 0x10, 0x11, 0x12, 0x13, 0x14, 0x15, 0x16, 0x17, 0x18, 0x19,
     0x1A, 0x1B, 0x1C, 0x1D, 0x1E, 0x1F, 0x20, 0x21, 0x22, 0x23, 0x24, 0x25,
     0x26, 0x27, 0x28, 0x29, 0x2A, 0x2B, 0x2C, 0x2D, 0x2E, 0x2F, 0x30, 0x31,
     0x32, 0x33, 0x34, 0x35, 0x36, 0x37].contains attr
  else if cluster = MTRClusterWiFiNetworkDiagnosticsID then
    [0x4, 0x5, 0x6, 0x7, 0x8, 0x9, 0xA, 0xB, 0xC].contains attr
  else if cluster = MTRClusterOperationalCredentialsID then
    [0x0, 0x4].contains attr
  else if cluster = MTRClusterPowerSourceID then
    [0x3, 0x4, 0x6, 0xB, 0xC, 0xD, 0x1B, 0x1D].contains attr
  else if cluster = MTRClusterTimeSynchronizationID then
    [0x0, 0x7].contains attr
  else false

/-! ### Report batches and historical-event marking
(`_handleReportBegin` MTRDevice.mm:1041, the priming-flag update of
`_getAttributesToReportWithReportedValues:` MTRDevice.mm:2515, and
`_handleEventReport:` MTRDevice.mm:1236) -/

/-- Public reachability state `MTRDeviceState`. -/
inductive MTRDeviceState where
  | unknown
  | reachable
  | unreachable
deriving DecidableEq

/-- The report-intake flags of `MTRDevice`: `_receivingReport`,
`_receivingPrimingReport` and the public `_state`. -/
structure ReportFlags where
  receivingReport : Bool
  receivingPrimingReport : Bool
  deviceState : MTRDeviceState
deriving DecidableEq

/-- Embedding of `-[MTRDevice _handleReportBegin]` (MTRDevice.mm:1041):
`_receivingReport` is set; when the device was not Reachable the batch is a
priming report and the state becomes Reachable, otherwise the priming flag
is cleared. -/
def handleReportBegin (s : ReportFlags) : ReportFlags :=
  if s.deviceState ≠ .reachable then
    { receivingReport := true, receivingPrimingReport := true, deviceState := .reachable }
  else
    { s with receivingReport := true, receivingPrimingReport := false }

/-- Embedding of the priming-flag update performed for each reported
attribute entry (MTRDevice.mm:2516): while a report is being received, an
entry whose path has the Changes Omitted quality forces
`_receivingPrimingReport = YES`. -/
def primingFlagAfterAttributeEntry (s : ReportFlags) (path : AttributePath) : ReportFlags :=
  if s.receivingReport && AttributeHasChangesOmittedQuality path then
    { s with receivingPrimingReport := true }
  else s

/-- Embedding of `-[MTRDevice _handleReportEnd]` flag effect
(MTRDevice.mm:1065): both report flags are cleared. -/
def handleReportEndFlags (s : ReportFlags) : ReportFlags :=
  { s with receivingReport := false, receivingPrimingReport := false }

/-- One element of a report batch as it reaches the device between
`report_begin` and `report_end`: a reported attribute entry (with data or
error, which is what reaches the priming-flag update) or an event. -/
inductive BatchItem where
  | attributeEntry (path : AttributePath)
  | event

/-- Process a report batch, tracking the flags and recording, for each
event in order, the `MTREventIsHistoricalKey` value it is delivered with
(`_handleEventReport:` tags each event with the current
`_receivingPrimingReport`). -/
def processBatchFlags : ReportFlags → List BatchItem → ReportFlags × List Bool
  | s, [] => (s, [])
  | s, .attributeEntry p :: rest => processBatchFlags (primingFlagAfterAttributeEntry s p) rest
  | s, .event :: rest =>
    let r := processBatchFlags s rest
    (r.1, s.receivingPrimingReport :: r.2)

/-! ### Cache-primed predicate
(`_isCachePrimedWithInitialConfigurationData`, MTRDevice.mm:2846) -/

/-- Root endpoint id (`kRootEndpointId`). -/
def kRootEndpointId : Nat := 0

/-- Descriptor cluster id (`MTRClusterIDTypeDescriptorID`). -/
def MTRClusterIDTypeDescriptorID : Nat := 0x1D

/-- Descriptor PartsList attribute id. -/
def MTRAttributeIDTypeClusterDescriptorAttributePartsListID : Nat := 0x3

/-- Descriptor DeviceTypeList attribute id. -/
def MTRAttributeIDTypeClusterDescriptorAttributeDeviceTypeListID : Nat := 0x0

/-- Per-endpoint loop of `_isCachePrimedWithInitialConfigurationData`
(MTRDevice.mm:2862): malformed parts-list items (no dictionary under
`MTRDataKey`, wrong type tag, or a non-number value) are skipped; for each
well-formed endpoint the cached Descriptor DeviceTypeList must be
array-typed with a value present, else the whole predicate is `NO`. -/
def cachePrimedPartsLoop (store : ClusterStore)
    (storage : ClusterPath → Option MTRDeviceClusterData) : MTRObjectList → Bool
  | .nil => true
  | .cons endpointDictionary rest =>
    match endpointDictionary.lookup MTRDataKey with
    | some (.dictionary entries) =>
      let endpointDataValue := MTRObject.dictionary entries
      if endpointDataValue.lookup MTRTypeKey ≠ some (.str MTRUnsignedIntegerValueType) then
        cachePrimedPartsLoop store storage rest
      else
        match endpointDataValue.lookup MTRValueKey with
        | some (.number endpoint) =>
          let r := cachedAttributeValueForPath store storage
            (endpoint, MTRClusterIDTypeDescriptorID,
              MTRAttributeIDTypeClusterDescriptorAttributeDeviceTypeListID)
          let ok : Bool :=
            match r.2 with
            | some deviceTypeList =>
              (deviceTypeList.lookup MTRTypeKey == some (.str MTRArrayValueType))
                && (deviceTypeList.lookup MTRValueKey).isSome
            | none => false
          if ok then cachePrimedPartsLoop r.1 storage rest else false
        | _ => cachePrimedPartsLoop store storage rest
    | _ => cachePrimedPartsLoop store storage rest

/-- Embedding of `-[MTRDevice _isCachePrimedWithInitialConfigurationData]`
(MTRDevice.mm:2846): the cached root Descriptor PartsList must exist, be
array-typed, hold an actual non-empty array, and every well-formed endpoint
listed must have an array-typed Descriptor DeviceTypeList cached. -/
def isCachePrimedWithInitialConfigurationData (store : ClusterStore)
    (storage : ClusterPath → Option MTRDeviceClusterData) : Bool :=
  let r := cachedAttributeValueForPath store storage
    (kRootEndpointId, MTRClusterIDTypeDescriptorID,
      MTRAttributeIDTypeClusterDescriptorAttributePartsListID)
  match r.2 with
  | none => false
  | some rootDescriptorPartsListDataValue =>
    if rootDescriptorPartsListDataValue.lookup MTRTypeKey ≠ some (.str MTRArrayValueType) then
      false
    else
      match rootDescriptorPartsListDataValue.lookup MTRValueKey with
      | some (.array partsList) =>
        if partsList.length = 0 then false
        else cachePrimedPartsLoop r.1 storage partsList
      | _ => false

/-! ### Timed-invoke deadline (`_invokeCommandWithEndpointID:...`,
MTRDevice.mm:2153 and MTRDevice.mm:2186)

Model time is in milliseconds; the source's seconds-valued `NSDate`
arithmetic (`timeout.doubleValue / 1000`, `... * 1000`) is the same
quantity expressed in seconds. -/

/-- Embedding of `cutoffTime = [NSDate dateWithTimeIntervalSinceNow:(timeout / 1000)]`
at enqueue time. -/
def invokeCutoffTime (enqueueTime timeoutMs : Nat) : Nat := enqueueTime + timeoutMs

/-- What the invoke ready handler does about the timed-invoke deadline. -/
inductive InvokeReadyAction where
  | failTimeout
  | sendCommand (timedInvokeTimeout : Option Nat)
deriving DecidableEq, Repr

/-- Embedding of the deadline check of the invoke ready handler
(MTRDevice.mm:2186): with no timeout the command is sent with a `nil`
timed-invoke timeout; with a timeout, a `now` strictly past the cutoff
completes the work with a Timeout status error without sending, and
otherwise the remaining time to the cutoff is forwarded as the actual
timed-invoke timeout. -/
def invokeReadyAction (cutoffTime : Option Nat) (now : Nat) : InvokeReadyAction :=
  match cutoffTime with
  | none => .sendCommand none
  | some cutoff =>
    if now > cutoff then .failTimeout
    else .sendCommand (some (cutoff - now))

/-! ### Read work queue: batching and duplicate suppression
(`readAttributeWithEndpointID:...`, MTRDevice.mm:1806) -/

/-- One `@[attribute request path, params ?: NSNull]` pair of a read work
item.  `MTRReadParams` is modelled opaquely as `Option Nat` (`none` is the
`NSNull` stand-in for `nil` params); its `isEqual:` is modelled as the
structural equality the batching comment asks for. -/
structure ReadRequest where
  path : AttributePath
  params : Option Nat
deriving DecidableEq

/-- `MTRBatchingOutcome`. -/
inductive MTRBatchingOutcome where
  | notBatched
  | batchedPartially
  | batchedFully
deriving DecidableEq, Repr

/-- Embedding of the read batching handler (MTRDevice.mm:1858): while the
next item still has requests, stop (keeping the outcome so far) once the
current item holds 9 requests or once the next item's first request has
params unequal to the current item's first request's params; otherwise move
the next item's first request onto the end of the current item and continue
with outcome `batchedPartially`; an emptied next item yields
`batchedFully`.  Returns the final current requests, the remaining next
requests and the outcome.  (A current item is never empty in the source; an
empty current is treated as a params mismatch here.) -/
def readBatchingLoop : List ReadRequest → List ReadRequest → MTRBatchingOutcome →
    List ReadRequest × List ReadRequest × MTRBatchingOutcome
  | cur, [], _ => (cur, [], .batchedFully)
  | cur, next0 :: rest, outcome =>
    if 9 ≤ cur.length then (cur, next0 :: rest, outcome)
    else if (cur.head?.map ReadRequest.params) ≠ some next0.params then
      (cur, next0 :: rest, outcome)
    else readBatchingLoop (cur ++ [next0]) rest .batchedPartially

/-- A queued work item, as far as read duplicate detection sees it: read
items carry their request list; write and invoke items only install the
always-non-duplicate handler (MTRDevice.mm:2037 and MTRDevice.mm:2171). -/
inductive WorkItem where
  | read (requests : List ReadRequest)
  | write
  | invoke
deriving DecidableEq

/-- The duplicate-check handler each kind of item installs for
`MTRDeviceWorkItemDuplicateReadTypeID`: a read item reports a duplicate iff
one of its requests `isEqual:` the probed data (MTRDevice.mm:1889); write
and invoke items report non-duplicate (MTRDevice.mm:2037,
MTRDevice.mm:2171). -/
def workItemReportsDuplicate : WorkItem → ReadRequest → Bool
  | .read requests, data => requests.contains data
  | .write, _ => false
  | .invoke, _ => false

/-- Modelled from the spec: `-[MTRAsyncWorkQueue hasDuplicateForTypeID:workItemData:]`
(the work-queue class is outside the provided sources).  Per §4.3, the new
read's data is shown to every queued item's duplicate handler and the read
is a duplicate iff any handler matches. -/
def hasDuplicateReadRequest (queue : List WorkItem) (data : ReadRequest) : Bool :=
  queue.any (fun item => workItemReportsDuplicate item data)

/-- Embedding of the enqueue decision of
`readAttributeWithEndpointID:clusterID:attributeID:params:`
(MTRDevice.mm:1835): a read work item is only created when the subscription
cannot deliver reports or the attribute has the Changes Omitted quality;
before enqueuing, a duplicate of the `(path, params)` pair among the queued
items drops the new read.  In every case the pre-computed best-known value
is returned synchronously.  Returns the resulting queue and the returned
value. -/
def readAttributeEnqueue (queue : List WorkItem)
    (subscriptionAbleToReport hasChangesOmittedQuality : Bool) (path : AttributePath)
    (params : Option Nat) (attributeValueToReturn : Option MTRObject) :
    List WorkItem × Option MTRObject :=
  if !subscriptionAbleToReport || hasChangesOmittedQuality then
    let readRequestData : ReadRequest := { path := path, params := params }
    if hasDuplicateReadRequest queue readRequestData then
      (queue, attributeValueToReturn)
    else
      (queue ++ [.read [readRequestData]], attributeValueToReturn)
  else (queue, attributeValueToReturn)

/-! ### Shared sample objects for concrete evaluations -/

/-- A concrete unsigned-integer data-value dictionary. -/
def sampleUIntDataValue (n : Nat) : MTRObject :=
  .dictionary (.cons MTRTypeKey (.str MTRUnsignedIntegerValueType)
    (.cons MTRValueKey (.number n) .nil))

/-- A concrete reported data-value dictionary carrying a data version. -/
def sampleReportedValueWithVersion (n version : Nat) : MTRObject :=
  .dictionary (.cons MTRTypeKey (.str MTRUnsignedIntegerValueType)
    (.cons MTRValueKey (.number n) (.cons MTRDataVersionKey (.number version) .nil)))

/-- The empty device state (no expected values, empty read cache). -/
def emptyDeviceState : DeviceState :=
  { expectedValueCache := fun _ => none, readCache := fun _ => none }

/-- A device state with one expected value and one read-cache value at path
`(1, 2, 3)`, with the expected value equal to the cached value. -/
def sampleStateEqualExpected : DeviceState :=
  { expectedValueCache := fun p =>
      if p = ((1, 2, 3) : AttributePath) then
        some { expirationTime := 100, value := sampleUIntDataValue 5, expectedValueID := 7 }
      else none
    readCache := fun p =>
      if p = ((1, 2, 3) : AttributePath) then some (sampleUIntDataValue 5) else none }

/-- A cluster store with one persisted cluster `(1, 2)` at data version 4
holding attribute `3 ↦ sampleUIntDataValue 5`. -/
def sampleClusterStore : ClusterStore :=
  { clusterDataToPersist := none
    persistedClusterData :=
      [((1, 2), { dataVersion := some 4, attributes := [(3, sampleUIntDataValue 5)] })]
    persistedClusters := [] }

/-- Empty external storage. -/
def emptyStorage : ClusterPath → Option MTRDeviceClusterData := fun _ => none

/-- Report flags of a device that is already Reachable and between report
batches. -/
def sampleReachableFlags : ReportFlags :=
  { receivingReport := false, receivingPrimingReport := false, deviceState := .reachable }

/-! ### Claim C1 -/

/-- C1: for every attribute path, after any sequence of expected-value
insertions, removals and expiry sweeps, `readAttribute`'s value lookup
(`_attributeValueDictionaryForAttributePath:`) returns the expected value
for that path when one is present and its expiration time has not passed
(`now ≤ expirationTime`), else the read-cache value for that path when one
is present, else nothing. -/
theorem C1_read_prefers_unexpired_expected_value (init : DeviceState)
    (ops : List ExpectedValueOp) (now : Nat) (path : AttributePath) :
    (attributeValueDictionaryForAttributePath (applyExpectedValueOps init ops) now path).2 =
      (match (applyExpectedValueOps init ops).expectedValueCache path with
       | some entry =>
         if now ≤ entry.expirationTime then some entry.value
         else (applyExpectedValueOps init ops).readCache path
       | none => (applyExpectedValueOps init ops).readCache path) := by
  generalize applyExpectedValueOps init ops = st
  unfold attributeValueDictionaryForAttributePath
  cases h : st.expectedValueCache path with
  | none => simp
  | some entry =>
    by_cases hexp : now > entry.expirationTime
    · simp [hexp, Nat.not_le.mpr hexp]
    · simp [hexp, Nat.le_of_not_lt hexp]

/-! ### Claim C2 -/

/-- With no server delay, the scheduled wait always equals the newly stored
wait counter (both branches of the backoff computation store what they
wait). -/
theorem handleSubscriptionResetWait_none_seconds (w : Nat) :
    (handleSubscriptionResetWait w none).secondsToWait =
      (handleSubscriptionResetWait w none).lastSubscriptionAttemptWait := by
  unfold handleSubscriptionResetWait
  split
  · rfl
  · rfl

/-- Stored wait counter after `k + 1` consecutive no-delay failures from a
reset counter: `min 3600 (2 ^ k)`. -/
theorem waitCounterAfterFailures_closed_form (k : Nat) :
    waitCounterAfterFailures 0 (k + 1) = min 3600 (2 ^ k) := by
  induction k with
  | zero => decide
  | succ k ih =>
    have hpow : 0 < 2 ^ k := pow_pos (by norm_num) k
    have hstep : waitCounterAfterFailures 0 (k + 1 + 1) =
        (handleSubscriptionResetWait (waitCounterAfterFailures 0 (k + 1))
          none).lastSubscriptionAttemptWait := rfl
    rw [hstep, ih]
    rcases le_or_lt 3600 (2 ^ k) with hle | hlt
    · rw [Nat.min_eq_left hle]
      have hge : 3600 ≤ 2 ^ (k + 1) := by rw [pow_succ]; omega
      rw [Nat.min_eq_left hge]
      simp only [handleSubscriptionResetWait,
        MTRDEVICE_SUBSCRIPTION_ATTEMPT_MIN_WAIT_SECONDS,
        MTRDEVICE_SUBSCRIPTION_ATTEMPT_MAX_WAIT_SECONDS]
      rw [if_neg (by omega)]
      norm_num
    · rw [Nat.min_eq_right hlt.le]
      simp only [handleSubscriptionResetWait,
        MTRDEVICE_SUBSCRIPTION_ATTEMPT_MIN_WAIT_SECONDS,
        MTRDEVICE_SUBSCRIPTION_ATTEMPT_MAX_WAIT_SECONDS]
      rw [if_neg (by omega)]
      rw [pow_succ]
      rcases le_or_lt (2 ^ k * 2) 3600 with hle2 | hgt2
      · rw [if_neg (by omega), Nat.min_eq_right hle2]
      · rw [if_pos (by omega), Nat.min_eq_left (by omega)]

/-- C2: starting from a reset wait counter (0), the wait scheduled at the
`(k+1)`-st consecutive failure with no server-provided delay is
`min 3600 (2 ^ k)` seconds — so the waits run 1, 2, 4, ... capped at
3600 s, starting from 1 second at the first failure — and subscription
establishment resets the stored wait counter to 0. -/
theorem C2_backoff_doubles_from_one_capped (k w : Nat) :
    (handleSubscriptionResetWait (waitCounterAfterFailures 0 k) none).secondsToWait =
        min 3600 (2 ^ k) ∧
      handleSubscriptionEstablishedWait w = 0 := by
  constructor
  · rw [handleSubscriptionResetWait_none_seconds]
    exact waitCounterAfterFailures_closed_form k
  · rfl

/-! ### Claim C3 -/

/-- C3 (code bug): evaluation of the embedded
`_removeExpectedValueForAttributePath:expectedValueID:` at the failing
input: the entry at `(1,2,3)` has generation 7 and a value equal to the
read-cache value, and a removal with the matching generation 7 leaves the
entry in the cache, contradicting the source's own contract comment ("If
value is nil, remove only if expectedValueID matches",
MTRDevice.mm:2671). -/
theorem C3_matching_generation_removal_skipped_when_value_equals_cache :
    (removeExpectedValueForAttributePath sampleStateEqualExpected (1, 2, 3) 7).expectedValueCache
        (1, 2, 3) =
      some { expirationTime := 100, value := sampleUIntDataValue 5, expectedValueID := 7 } := by
  decide

/-! ### Claim C4 -/

/-- C4 counterexample: at the first failure after a success or after device
creation the stored wait counter is 0, and a failure carrying a
server-provided delay of 30 s does not reset the counter to 0 and wait
30 s; the minimum-wait branch wins and the device waits 1 s with the
counter set to 1. -/
theorem C4_counterexample_first_failure_ignores_server_delay :
    handleSubscriptionResetWait 0 (some 30) ≠
      { lastSubscriptionAttemptWait := 0, secondsToWait := 30 } := by
  decide

/-- C4 (amended): whenever a subscription attempt fails with a
server-provided retry delay `d` and the stored wait counter is at least the
1 s minimum (i.e. this is not the first failure after a success or after
device creation), the counter is reset to 0 and the next reattempt is
scheduled `d` seconds later; at a failure with the counter below the
minimum, the counter becomes 1 and 1 s is waited regardless of the server
delay. -/
theorem C4_server_delay_resets_counter_when_past_min (w d : Nat)
    (h : MTRDEVICE_SUBSCRIPTION_ATTEMPT_MIN_WAIT_SECONDS ≤ w) :
    handleSubscriptionResetWait w (some d) =
        { lastSubscriptionAttemptWait := 0, secondsToWait := d } ∧
      handleSubscriptionResetWait 0 (some d) =
        { lastSubscriptionAttemptWait := 1, secondsToWait := 1 } := by
  constructor
  · unfold handleSubscriptionResetWait
    rw [if_neg (by omega)]
  · rfl

/-- Concrete witness for `C4_server_delay_resets_counter_when_past_min`. -/
theorem C4_server_delay_resets_counter_witness :
    handleSubscriptionResetWait 1 (some 30) =
        { lastSubscriptionAttemptWait := 0, secondsToWait := 30 } ∧
      handleSubscriptionResetWait 0 (some 30) =
        { lastSubscriptionAttemptWait := 1, secondsToWait := 1 } :=
  C4_server_delay_resets_counter_when_past_min 1 30 (by decide)

/-! ### Claim C5 -/

/-- Inserting an expected value writes exactly the `(expiration, value, id)`
entry at its path and leaves every other path untouched. -/
theorem setExpectedValue_insert_cache (st : DeviceState) (v : MTRObject)
    (path : AttributePath) (expirationTime expectedValueID : Nat) (q : AttributePath) :
    ((setExpectedValue st (some v) path expirationTime expectedValueID).state).expectedValueCache
        q =
      if q = path then
        some { expirationTime := expirationTime, value := v, expectedValueID := expectedValueID }
      else st.expectedValueCache q := by
  unfold setExpectedValue
  cases h : st.expectedValueCache path with
  | none =>
    simp only [h, updateMap]
    split
    · rfl
    · split <;> rfl
  | some prev =>
    simp only [h, updateMap]
    split
    · rfl
    · split <;> rfl

/-- Folding a batch insertion over paths not named in the batch leaves the
cache unchanged there. -/
theorem expectedValuesFold_preserves (values : List (AttributePath × MTRObject))
    (expirationTime expectedValueID : Nat) :
    ∀ (st : DeviceState) (q : AttributePath), q ∉ values.map Prod.fst →
      ((values.foldl
          (fun s pv => (setExpectedValue s (some pv.2) pv.1 expirationTime expectedValueID).state)
          st).expectedValueCache q) = st.expectedValueCache q := by
  induction values with
  | nil => intro st q _; rfl
  | cons pv rest ih =>
    intro st q hq
    simp only [List.map_cons, List.mem_cons, not_or] at hq
    simp only [List.foldl_cons]
    rw [ih _ q hq.2, setExpectedValue_insert_cache, if_neg hq.1]

/-- Every path named in a batch insertion ends up with an entry carrying the
batch's shared generation id and expiration. -/
theorem expectedValuesFold_installs (values : List (AttributePath × MTRObject))
    (expirationTime expectedValueID : Nat) :
    ∀ (st : DeviceState) (q : AttributePath), q ∈ values.map Prod.fst →
      ∃ e, ((values.foldl
          (fun s pv => (setExpectedValue s (some pv.2) pv.1 expirationTime expectedValueID).state)
          st).expectedValueCache q) = some e ∧
        e.expectedValueID = expectedValueID ∧ e.expirationTime = expirationTime := by
  induction values with
  | nil => intro st q hq; simp at hq
  | cons pv rest ih =>
    intro st q hq
    simp only [List.foldl_cons]
    by_cases hmem : q ∈ rest.map Prod.fst
    · exact ih _ q hmem
    · simp only [List.map_cons, List.mem_cons] at hq
      have hq1 : q = pv.1 := hq.resolve_right hmem
      let entry : ExpectedValueEntry :=
        { expirationTime := expirationTime, value := pv.2, expectedValueID := expectedValueID }
      refine ⟨entry, ?_, rfl, rfl⟩
      rw [expectedValuesFold_preserves rest expirationTime expectedValueID _ q hmem,
        setExpectedValue_insert_cache, if_pos hq1]

/-- C5 counterexample: an `invokeCommand` with a present expected-value
interval equal to 0 does not discard the provided expected values (the
source only discards them when the interval is `nil` or negative), contrary
to the claim that an interval `≤ 0` stores nothing. -/
theorem C5_counterexample_zero_interval_keeps_expected_values :
    (invokeCommandExpectedValuePreprocessing
        (some [(((1, 2, 3) : AttributePath), sampleUIntDataValue 5)]) (some 0)).1 ≠ none := by
  decide

/-- C5 (amended): on `invokeCommand`, when the expected-value interval is
missing (`nil`) or negative, no expected values are installed; when it is
present and non-negative (it is then clamped into `[1, 2^32 − 1]` ms) all
provided expected values are kept and installed under the one freshly
allocated generation id (the id counter is bumped once and every installed
entry carries that id and the shared expiration). -/
theorem C5_invoke_expected_values_installed_under_one_generation
    (vals : List (AttributePath × MTRObject)) (i : Int) (st : DeviceState)
    (expectedValueNextID expirationTime : Nat) :
    (invokeCommandExpectedValuePreprocessing (some vals) none).1 = none ∧
      (i < 0 → (invokeCommandExpectedValuePreprocessing (some vals) (some i)).1 = none) ∧
      (0 ≤ i → (invokeCommandExpectedValuePreprocessing (some vals) (some i)).1 = some vals) ∧
      (getAttributesToReportWithNewExpectedValues st expectedValueNextID vals
          expirationTime).2.2 = expectedValueNextID ∧
      (∀ q, q ∈ vals.map Prod.fst →
        ∃ e, ((getAttributesToReportWithNewExpectedValues st expectedValueNextID vals
            expirationTime).1).expectedValueCache q = some e ∧
          e.expectedValueID = expectedValueNextID ∧ e.expirationTime = expirationTime) := by
  refine ⟨rfl, ?_, ?_, rfl, ?_⟩
  · intro hneg
    simp only [invokeCommandExpectedValuePreprocessing]
    rw [if_pos hneg]
  · intro hpos
    simp only [invokeCommandExpectedValuePreprocessing]
    rw [if_neg (not_lt.mpr hpos)]
  · intro q hq
    exact expectedValuesFold_installs vals expirationTime expectedValueNextID st q hq

/-- Concrete witness for
`C5_invoke_expected_values_installed_under_one_generation`. -/
theorem C5_invoke_expected_values_witness :
    (invokeCommandExpectedValuePreprocessing
        (some [(((1, 2, 3) : AttributePath), sampleUIntDataValue 6)]) (some 5)).1 =
        some [(((1, 2, 3) : AttributePath), sampleUIntDataValue 6)] ∧
      ∃ e, ((getAttributesToReportWithNewExpectedValues emptyDeviceState 0
          [(((1, 2, 3) : AttributePath), sampleUIntDataValue 6)] 50).1).expectedValueCache
            (1, 2, 3) = some e ∧
        e.expectedValueID = 0 ∧ e.expirationTime = 50 := by
  have h := C5_invoke_expected_values_installed_under_one_generation
    [(((1, 2, 3) : AttributePath), sampleUIntDataValue 6)] 5 emptyDeviceState 0 50
  exact ⟨h.2.2.1 (by norm_num), h.2.2.2.2 (1, 2, 3) (by simp)⟩

/-! ### Claim C7 -/

/-- C7: an enqueued invoke with a timed-invoke timeout records the cutoff
`enqueue time + timeout`; at ready time, a current time strictly past the
cutoff completes the invoke with a Timeout status error without sending the
command, and otherwise the remaining time to the cutoff is forwarded as the
timed-invoke timeout actually used. -/
theorem C7_timed_invoke_deadline (enqueueTime timeoutMs now : Nat) :
    (now > invokeCutoffTime enqueueTime timeoutMs →
        invokeReadyAction (some (invokeCutoffTime enqueueTime timeoutMs)) now =
          .failTimeout) ∧
      (now ≤ invokeCutoffTime enqueueTime timeoutMs →
        invokeReadyAction (some (invokeCutoffTime enqueueTime timeoutMs)) now =
          .sendCommand (some (enqueueTime + timeoutMs - now))) := by
  constructor
  · intro hlate
    simp only [invokeReadyAction]
    rw [if_pos hlate]
  · intro hok
    simp only [invokeReadyAction]
    rw [if_neg (not_lt.mpr hok)]
    rfl

/-- Concrete witness for `C7_timed_invoke_deadline`. -/
theorem C7_timed_invoke_deadline_witness :
    invokeReadyAction (some (invokeCutoffTime 100 50)) 200 = .failTimeout ∧
      invokeReadyAction (some (invokeCutoffTime 100 50)) 120 = .sendCommand (some 30) := by
  have h := C7_timed_invoke_deadline 100 50 200
  have h2 := C7_timed_invoke_deadline 100 50 120
  exact ⟨h.1 (by decide), h2.2 (by decide)⟩

/-! ### Claim C8 -/

/-- Every request in the batched current item either was already in it or
was moved from the next item and has params equal to the current item's
first request's params. -/
theorem readBatchingLoop_mem (next : List ReadRequest) :
    ∀ (cur : List ReadRequest) (outcome : MTRBatchingOutcome) (r : ReadRequest),
      r ∈ (readBatchingLoop cur next outcome).1 →
      r ∈ cur ∨ (r ∈ next ∧ cur.head?.map ReadRequest.params = some r.params) := by
  induction next with
  | nil =>
    intro cur outcome r hr
    simp only [readBatchingLoop] at hr
    exact Or.inl hr
  | cons n0 rest ih =>
    intro cur outcome r hr
    unfold readBatchingLoop at hr
    by_cases hlen : 9 ≤ cur.length
    · rw [if_pos hlen] at hr; exact Or.inl hr
    · rw [if_neg hlen] at hr
      by_cases hpar : cur.head?.map ReadRequest.params ≠ some n0.params
      · rw [if_pos hpar] at hr; exact Or.inl hr
      · rw [if_neg hpar] at hr
        push_neg at hpar
        have hcur : cur ≠ [] := by
          intro hnil
          rw [hnil] at hpar
          simp at hpar
        rcases ih (cur ++ [n0]) .batchedPartially r hr with hin | ⟨hinrest, hhead⟩
        · rcases List.mem_append.mp hin with h1 | h2
          · exact Or.inl h1
          · have hrn : r = n0 := by simpa using h2
            subst hrn
            exact Or.inr ⟨List.mem_cons_self _ _, hpar⟩
        · have hh : (cur ++ [n0]).head? = cur.head? := by
            cases cur with
            | nil => exact absurd rfl hcur
            | cons c t => rfl
          rw [hh] at hhead
          exact Or.inr ⟨List.mem_cons_of_mem _ hinrest, hhead⟩

/-- Batching never grows a current item past 9 requests. -/
theorem readBatchingLoop_length_le (next : List ReadRequest) :
    ∀ (cur : List ReadRequest) (outcome : MTRBatchingOutcome), cur.length ≤ 9 →
      (readBatchingLoop cur next outcome).1.length ≤ 9 := by
  induction next with
  | nil =>
    intro cur outcome h
    simpa only [readBatchingLoop] using h
  | cons n0 rest ih =>
    intro cur outcome h
    unfold readBatchingLoop
    by_cases hlen : 9 ≤ cur.length
    · rw [if_pos hlen]; exact h
    · rw [if_neg hlen]
      by_cases hpar : cur.head?.map ReadRequest.params ≠ some n0.params
      · rw [if_pos hpar]; exact h
      · rw [if_neg hpar]
        refine ih (cur ++ [n0]) .batchedPartially ?_
        simp only [List.length_append, List.length_cons, List.length_nil]
        omega

/-- C8: the read batching handler merges request paths from the following
item only while the merged item holds at most 9 requests and only requests
whose params equal the current item's params (first request's params); and
a read whose `(path, params)` pair duplicates one already queued is not
enqueued at all — the queue is unchanged and the pre-computed best-known
value is returned synchronously. -/
theorem C8_read_batching_and_duplicate_suppression
    (cur next : List ReadRequest) (outcome : MTRBatchingOutcome) (queue : List WorkItem)
    (subscriptionAbleToReport hasChangesOmittedQuality : Bool) (path : AttributePath)
    (params : Option Nat) (best : Option MTRObject) (hlen : cur.length ≤ 9) :
    (∀ r ∈ (readBatchingLoop cur next outcome).1,
        r ∈ cur ∨ (r ∈ next ∧ cur.head?.map ReadRequest.params = some r.params)) ∧
      (readBatchingLoop cur next outcome).1.length ≤ 9 ∧
      (hasDuplicateReadRequest queue { path := path, params := params } = true →
        readAttributeEnqueue queue subscriptionAbleToReport hasChangesOmittedQuality path
            params best =
          (queue, best)) := by
  refine ⟨fun r hr => readBatchingLoop_mem next cur outcome r hr,
    readBatchingLoop_length_le next cur outcome hlen, ?_⟩
  intro hdup
  simp only [readAttributeEnqueue, hdup, if_true, ite_self]

/-- Concrete witness for `C8_read_batching_and_duplicate_suppression`. -/
theorem C8_read_batching_witness :
    (readBatchingLoop [{ path := (1, 2, 3), params := none }]
          [{ path := (1, 2, 4), params := none }] .notBatched).1.length ≤ 9 ∧
      readAttributeEnqueue [.read [{ path := (1, 2, 3), params := some 4 }]] false false
          (1, 2, 3) (some 4) none =
        ([.read [{ path := (1, 2, 3), params := some 4 }]], none) := by
  have h := C8_read_batching_and_duplicate_suppression
    [{ path := (1, 2, 3), params := none }] [{ path := (1, 2, 4), params := none }]
    .notBatched [.read [{ path := (1, 2, 3), params := some 4 }]] false false (1, 2, 3)
    (some 4) none (by decide)
  exact ⟨h.2.1, h.2.2 (by decide)⟩

/-! ### Claim C9 -/

/-- Reduction of `processBatchFlags` over an attribute entry. -/
theorem processBatchFlags_attr (s : ReportFlags) (p : AttributePath) (rest : List BatchItem) :
    processBatchFlags s (.attributeEntry p :: rest) =
      processBatchFlags (primingFlagAfterAttributeEntry s p) rest := rfl

/-- Reduction of `processBatchFlags` over an event. -/
theorem processBatchFlags_event (s : ReportFlags) (rest : List BatchItem) :
    processBatchFlags s (.event :: rest) =
      ((processBatchFlags s rest).1,
        s.receivingPrimingReport :: (processBatchFlags s rest).2) := rfl

/-- `_receivingReport` is unchanged by attribute entries and events inside a
batch. -/
theorem processBatchFlags_receivingReport (items : List BatchItem) :
    ∀ s : ReportFlags, (processBatchFlags s items).1.receivingReport = s.receivingReport := by
  induction items with
  | nil => intro s; rfl
  | cons item rest ih =>
    intro s
    cases item with
    | attributeEntry p =>
      rw [processBatchFlags_attr, ih]
      unfold primingFlagAfterAttributeEntry
      split <;> rfl
    | event =>
      rw [processBatchFlags_event]
      exact ih s

/-- Once the priming flag is set inside a batch it stays set, and every
event processed from then on is tagged historical. -/
theorem processBatchFlags_priming_monotone (items : List BatchItem) :
    ∀ s : ReportFlags, s.receivingPrimingReport = true →
      (processBatchFlags s items).1.receivingPrimingReport = true ∧
        ∀ b ∈ (processBatchFlags s items).2, b = true := by
  induction items with
  | nil =>
    intro s h
    refine ⟨h, ?_⟩
    intro b hb
    simp only [processBatchFlags, List.not_mem_nil] at hb
  | cons item rest ih =>
    intro s h
    cases item with
    | attributeEntry p =>
      rw [processBatchFlags_attr]
      refine ih _ ?_
      unfold primingFlagAfterAttributeEntry
      split
      · rfl
      · exact h
    | event =>
      rw [processBatchFlags_event]
      refine ⟨(ih s h).1, ?_⟩
      intro b hb
      rcases List.mem_cons.mp hb with hb1 | hb2
      · rw [hb1]; exact h
      · exact (ih s h).2 b hb2

/-- Batch processing splits over list append (flag component). -/
theorem processBatchFlags_append_fst (xs ys : List BatchItem) :
    ∀ s : ReportFlags,
      (processBatchFlags s (xs ++ ys)).1 =
        (processBatchFlags (processBatchFlags s xs).1 ys).1 := by
  induction xs with
  | nil => intro s; rfl
  | cons item rest ih =>
    intro s
    cases item with
    | attributeEntry p =>
      rw [List.cons_append, processBatchFlags_attr, processBatchFlags_attr, ih]
    | event =>
      rw [List.cons_append, processBatchFlags_event, processBatchFlags_event]
      exact ih s

/-- C9: when a report batch begins with the device already Reachable the
priming flag starts false; yet once any reported attribute entry with the
hard-coded Changes Omitted quality is processed in the batch, the flag is
forced true, so every event processed later in that same batch is delivered
with `isHistorical = true`. -/
theorem C9_changes_omitted_entry_marks_later_events_historical (init : ReportFlags)
    (pre post : List BatchItem) (p : AttributePath)
    (hq : AttributeHasChangesOmittedQuality p = true)
    (hreach : init.deviceState = .reachable) :
    (handleReportBegin init).receivingPrimingReport = false ∧
      ∀ b ∈ (processBatchFlags
          (processBatchFlags (handleReportBegin init) (pre ++ [.attributeEntry p])).1
          post).2,
        b = true := by
  have hfalse : (handleReportBegin init).receivingPrimingReport = false := by
    unfold handleReportBegin
    rw [if_neg (by rw [hreach]; simp)]
  have hrr : (handleReportBegin init).receivingReport = true := by
    unfold handleReportBegin
    split <;> rfl
  refine ⟨hfalse, ?_⟩
  have hs1rr : (processBatchFlags (handleReportBegin init) pre).1.receivingReport = true := by
    rw [processBatchFlags_receivingReport, hrr]
  have hs2 : (processBatchFlags (handleReportBegin init)
      (pre ++ [.attributeEntry p])).1.receivingPrimingReport = true := by
    rw [processBatchFlags_append_fst, processBatchFlags_attr]
    show (primingFlagAfterAttributeEntry (processBatchFlags (handleReportBegin init) pre).1
      p).receivingPrimingReport = true
    unfold primingFlagAfterAttributeEntry
    rw [if_pos (by rw [hs1rr, hq]; rfl)]
  exact (processBatchFlags_priming_monotone post _ hs2).2

/-- Concrete witness for
`C9_changes_omitted_entry_marks_later_events_historical`: the General
Diagnostics UpTime attribute (in the hard-coded table) arrives in a batch
that began Reachable, followed by one event. -/
theorem C9_changes_omitted_witness :
    (handleReportBegin sampleReachableFlags).receivingPrimingReport = false ∧
      ∀ b ∈ (processBatchFlags
          (processBatchFlags (handleReportBegin sampleReachableFlags)
            ([] ++ [.attributeEntry (0, MTRClusterGeneralDiagnosticsID,
              MTRClusterGeneralDiagnosticsAttributeUpTimeID)])).1
          [.event]).2,
        b = true :=
  C9_changes_omitted_entry_marks_later_events_historical sampleReachableFlags [] [.event]
    (0, MTRClusterGeneralDiagnosticsID, MTRClusterGeneralDiagnosticsAttributeUpTimeID)
    (by decide) (by decide)

/-! ### Claim C10 -/

/-- C10: the cache-primed predicate returns false whenever the cached root
Descriptor parts-list value's payload is the empty array or is not an array
at all (including a missing payload), so `deviceCachePrimed` can never fire
for a device whose root parts-list attribute is present but empty. -/
theorem C10_empty_parts_list_never_primed (store : ClusterStore)
    (storage : ClusterPath → Option MTRDeviceClusterData) (v : MTRObject)
    (hfound : (cachedAttributeValueForPath store storage (kRootEndpointId,
        MTRClusterIDTypeDescriptorID,
        MTRAttributeIDTypeClusterDescriptorAttributePartsListID)).2 = some v)
    (hval : v.lookup MTRValueKey = some (.array .nil) ∨
      ∀ xs, v.lookup MTRValueKey ≠ some (.array xs)) :
    isCachePrimedWithInitialConfigurationData store storage = false := by
  simp only [isCachePrimedWithInitialConfigurationData, hfound]
  by_cases hty : v.lookup MTRTypeKey = some (.str MTRArrayValueType)
  · rw [if_neg (not_not_intro hty)]
    rcases hval with hempty | hnone
    · rw [hempty]; rfl
    · cases hv : v.lookup MTRValueKey with
      | none => rfl
      | some obj =>
        cases obj with
        | number n => rfl
        | str s => rfl
        | array xs => exact absurd hv (hnone xs)
        | dictionary e => rfl
  · rw [if_pos hty]

/-- A cluster store whose root Descriptor PartsList is present but holds an
empty array. -/
def sampleStoreEmptyPartsList : ClusterStore :=
  { clusterDataToPersist := none
    persistedClusterData :=
      [((kRootEndpointId, MTRClusterIDTypeDescriptorID),
        { dataVersion := none
          attributes := [(MTRAttributeIDTypeClusterDescriptorAttributePartsListID,
            .dictionary (.cons MTRTypeKey (.str MTRArrayValueType)
              (.cons MTRValueKey (.array .nil) .nil)))] })]
    persistedClusters := [] }

/-- Concrete witness for `C10_empty_parts_list_never_primed`. -/
theorem C10_empty_parts_list_witness :
    isCachePrimedWithInitialConfigurationData sampleStoreEmptyPartsList emptyStorage = false :=
  C10_empty_parts_list_never_primed sampleStoreEmptyPartsList emptyStorage
    (.dictionary (.cons MTRTypeKey (.str MTRArrayValueType)
      (.cons MTRValueKey (.array .nil) .nil)))
    (by decide) (Or.inl (by decide))

/-! ### Claim C6 -/

/-- Association-list store followed by lookup at the same key. -/
theorem assocFind_assocStore_self {α β : Type} [DecidableEq α]
    (l : List (α × β)) (key : α) (v : β) : assocFind (assocStore l key v) key = some v := by
  induction l with
  | nil => simp [assocStore, assocFind]
  | cons kv rest ih =>
    obtain ⟨k, w⟩ := kv
    by_cases hk : k = key
    · simp [assocStore, assocFind, hk]
    · simp [assocStore, assocFind, hk, ih]

/-- Storing an attribute value never touches the record's data version. -/
theorem storeValue_dataVersion (clusterData : MTRDeviceClusterData)
    (value : Option MTRObject) (attributeID : Nat) :
    (clusterData.storeValue value attributeID).dataVersion = clusterData.dataVersion := by
  cases value <;> rfl

/-- Looking up the cluster just put into the dirty map finds it (and changes
nothing). -/
theorem clusterDataForPath_storeDirty (store : ClusterStore)
    (storage : ClusterPath → Option MTRDeviceClusterData) (cp : ClusterPath)
    (cd : MTRDeviceClusterData) :
    clusterDataForPath (store.storeDirty cp cd) storage cp = (store.storeDirty cp cd, some cd) := by
  unfold ClusterStore.storeDirty
  cases hd : store.clusterDataToPersist with
  | some dirty =>
    simp [clusterDataForPath, assocFind_assocStore_self]
  | none =>
    simp [clusterDataForPath, assocFind]

/-- The cluster just put into the dirty map is marked dirty. -/
theorem clusterMarkedDirty_storeDirty (store : ClusterStore) (cp : ClusterPath)
    (cd : MTRDeviceClusterData) :
    clusterMarkedDirty (store.storeDirty cp cd) cp = true := by
  unfold ClusterStore.storeDirty
  cases hd : store.clusterDataToPersist with
  | some dirty => simp [clusterMarkedDirty, assocFind_assocStore_self]
  | none => simp [clusterMarkedDirty, assocFind]

/-- The persisted-level lookup never touches the dirty map. -/
theorem clusterDataForPathPersisted_dirtyEq (store : ClusterStore)
    (storage : ClusterPath → Option MTRDeviceClusterData) (cp : ClusterPath) :
    (clusterDataForPathPersisted store storage cp).1.clusterDataToPersist =
      store.clusterDataToPersist := by
  unfold clusterDataForPathPersisted
  cases h : assocFind store.persistedClusterData cp with
  | some d => rfl
  | none =>
    by_cases hmem : cp ∈ store.persistedClusters
    · rw [if_pos hmem]
      cases h2 : storage cp with
      | some data => rfl
      | none => rfl
    · rw [if_neg hmem]

/-- The persisted-level lookup is idempotent: looking up again in the store
it returned finds the same record without further changes. -/
theorem clusterDataForPathPersisted_idem (store : ClusterStore)
    (storage : ClusterPath → Option MTRDeviceClusterData) (cp : ClusterPath) :
    clusterDataForPathPersisted (clusterDataForPathPersisted store storage cp).1 storage cp =
      ((clusterDataForPathPersisted store storage cp).1,
        (clusterDataForPathPersisted store storage cp).2) := by
  unfold clusterDataForPathPersisted
  cases h : assocFind store.persistedClusterData cp with
  | some d => simp only [assocFind, h]
  | none =>
    by_cases hmem : cp ∈ store.persistedClusters
    · rw [if_pos hmem]
      cases h2 : storage cp with
      | some data =>
        simp only [assocFind_assocStore_self]
      | none =>
        simp only [h, if_pos hmem, h2]
    · rw [if_neg hmem]
      simp only [h, if_neg hmem]

/-- Dirty-map hit of the full lookup. -/
theorem clusterDataForPath_dirty_hit (store : ClusterStore)
    (storage : ClusterPath → Option MTRDeviceClusterData) (cp : ClusterPath)
    (dirty : List (ClusterPath × MTRDeviceClusterData)) (d : MTRDeviceClusterData)
    (hd : store.clusterDataToPersist = some dirty) (hf : assocFind dirty cp = some d) :
    clusterDataForPath store storage cp = (store, some d) := by
  simp only [clusterDataForPath, hd, hf]

/-- Dirty-map miss of the full lookup: it falls through to the
persisted-level lookup. -/
theorem clusterDataForPath_dirty_miss (store : ClusterStore)
    (storage : ClusterPath → Option MTRDeviceClusterData) (cp : ClusterPath)
    (h : ∀ dirty, store.clusterDataToPersist = some dirty → assocFind dirty cp = none) :
    clusterDataForPath store storage cp = clusterDataForPathPersisted store storage cp := by
  cases hd : store.clusterDataToPersist with
  | none => simp only [clusterDataForPath, hd]
  | some dirty => simp only [clusterDataForPath, hd, h dirty hd]

/-- The full lookup is idempotent. -/
theorem clusterDataForPath_idem (store : ClusterStore)
    (storage : ClusterPath → Option MTRDeviceClusterData) (cp : ClusterPath) :
    clusterDataForPath (clusterDataForPath store storage cp).1 storage cp =
      ((clusterDataForPath store storage cp).1, (clusterDataForPath store storage cp).2) := by
  cases hd : store.clusterDataToPersist with
  | some dirty =>
    cases hf : assocFind dirty cp with
    | some d =>
      have hq := clusterDataForPath_dirty_hit store storage cp dirty d hd hf
      rw [hq]
      exact hq
    | none =>
      have hq := clusterDataForPath_dirty_miss store storage cp
        (by intro dirty2 hd2; rw [hd] at hd2; cases hd2; exact hf)
      rw [hq]
      have hdirty := clusterDataForPathPersisted_dirtyEq store storage cp
      have hmiss : clusterDataForPath (clusterDataForPathPersisted store storage cp).1 storage
          cp = clusterDataForPathPersisted (clusterDataForPathPersisted store storage cp).1
            storage cp := by
        apply clusterDataForPath_dirty_miss
        intro dirty2 hd2
        rw [hdirty, hd] at hd2
        cases hd2
        exact hf
      rw [hmiss]
      exact clusterDataForPathPersisted_idem store storage cp
  | none =>
    have hq := clusterDataForPath_dirty_miss store storage cp
      (by intro dirty2 hd2; rw [hd] at hd2; cases hd2)
    rw [hq]
    have hdirty := clusterDataForPathPersisted_dirtyEq store storage cp
    have hmiss : clusterDataForPath (clusterDataForPathPersisted store storage cp).1 storage
        cp = clusterDataForPathPersisted (clusterDataForPathPersisted store storage cp).1
          storage cp := by
      apply clusterDataForPath_dirty_miss
      intro dirty2 hd2
      rw [hdirty, hd] at hd2
      cases hd2
    rw [hmiss]
    exact clusterDataForPathPersisted_idem store storage cp

/-- First projection of `_cachedAttributeValueForPath:` is the store
returned by the cluster lookup. -/
theorem cachedAttributeValueForPath_fst (store : ClusterStore)
    (storage : ClusterPath → Option MTRDeviceClusterData) (path : AttributePath) :
    (cachedAttributeValueForPath store storage path).1 =
      (clusterDataForPath store storage (clusterPathOf path)).1 := by
  unfold cachedAttributeValueForPath
  cases h : (clusterDataForPath store storage (clusterPathOf path)).2 <;> simp [h]

/-- `noteDataVersion` leaves the cluster record observable with exactly the
noted version, and the store it returns is stable under lookup. -/
theorem noteDataVersion_lookup (s : ClusterStore)
    (storage : ClusterPath → Option MTRDeviceClusterData) (ver : Nat) (cp : ClusterPath) :
    ∃ cd, clusterDataForPath (noteDataVersion s storage ver cp) storage cp =
        (noteDataVersion s storage ver cp, some cd) ∧ cd.dataVersion = some ver := by
  cases h : (clusterDataForPath s storage cp).2 with
  | none =>
    have hnote : noteDataVersion s storage ver cp =
        (clusterDataForPath s storage cp).1.storeDirty cp
          { dataVersion := some ver, attributes := [] } := by
      simp only [noteDataVersion, h]
    rw [hnote]
    exact ⟨_, clusterDataForPath_storeDirty _ storage cp _, rfl⟩
  | some cd =>
    by_cases hver : cd.dataVersion ≠ some ver
    · have hnote : noteDataVersion s storage ver cp =
          (clusterDataForPath s storage cp).1.storeDirty cp
            { dataVersion := some ver, attributes := cd.attributes } := by
        simp only [noteDataVersion, h]
        rw [if_pos hver]
      rw [hnote]
      exact ⟨_, clusterDataForPath_storeDirty _ storage cp _, rfl⟩
    · have hnote : noteDataVersion s storage ver cp = (clusterDataForPath s storage cp).1 := by
        simp only [noteDataVersion, h]
        rw [if_neg hver]
      rw [hnote]
      push_neg at hver
      refine ⟨cd, ?_, hver⟩
      have hidem := clusterDataForPath_idem s storage cp
      rw [h] at hidem
      exact hidem

/-- Effect of `_setCachedAttributeValue:` (with a value) on the observable
data version: the version of the record the lookup found (or `none` when a
record is created). -/
theorem setCached_observed (s : ClusterStore)
    (storage : ClusterPath → Option MTRDeviceClusterData) (val : MTRObject)
    (path : AttributePath) (cdOpt : Option MTRDeviceClusterData)
    (h : clusterDataForPath s storage (clusterPathOf path) = (s, cdOpt)) :
    observedClusterDataVersion (setCachedAttributeValue s storage (some val) path) storage
        (clusterPathOf path) =
      cdOpt.bind MTRDeviceClusterData.dataVersion := by
  cases cdOpt with
  | some cd =>
    have hset : setCachedAttributeValue s storage (some val) path =
        s.storeDirty (clusterPathOf path) (cd.storeValue (some val) path.2.2) := by
      simp only [setCachedAttributeValue, h]
    rw [hset]
    unfold observedClusterDataVersion
    rw [clusterDataForPath_storeDirty]
    rfl
  | none =>
    have hset : setCachedAttributeValue s storage (some val) path =
        s.storeDirty (clusterPathOf path)
          (MTRDeviceClusterData.storeValue { dataVersion := none, attributes := [] }
            (some val) path.2.2) := by
      simp only [setCachedAttributeValue, h]
    rw [hset]
    unfold observedClusterDataVersion
    rw [clusterDataForPath_storeDirty]
    rfl

/-- `_setCachedAttributeValue:` with a value always marks the cluster
dirty. -/
theorem setCached_some_marks_dirty (s : ClusterStore)
    (storage : ClusterPath → Option MTRDeviceClusterData) (val : MTRObject)
    (path : AttributePath) (cdOpt : Option MTRDeviceClusterData)
    (h : clusterDataForPath s storage (clusterPathOf path) = (s, cdOpt)) :
    clusterMarkedDirty (setCachedAttributeValue s storage (some val) path)
        (clusterPathOf path) = true := by
  cases cdOpt with
  | some cd =>
    have hset : setCachedAttributeValue s storage (some val) path =
        s.storeDirty (clusterPathOf path) (cd.storeValue (some val) path.2.2) := by
      simp only [setCachedAttributeValue, h]
    rw [hset]
    exact clusterMarkedDirty_storeDirty _ _ _
  | none =>
    have hset : setCachedAttributeValue s storage (some val) path =
        s.storeDirty (clusterPathOf path)
          (MTRDeviceClusterData.storeValue { dataVersion := none, attributes := [] }
            (some val) path.2.2) := by
      simp only [setCachedAttributeValue, h]
    rw [hset]
    exact clusterMarkedDirty_storeDirty _ _ _

/-- C6 counterexample: a reported entry that carries data version 7 but
whose (version-stripped) value equals the cached value updates nothing: the
store is returned unchanged, the stored version stays 4 and the cluster is
not marked dirty — contradicting the claim that the version is updated iff
the incoming value carries one. -/
theorem C6_counterexample_version_carried_but_value_unchanged :
    ingestReportedAttributeNoError sampleClusterStore emptyStorage (1, 2, 3)
        (sampleReportedValueWithVersion 5 7) = sampleClusterStore ∧
      observedClusterDataVersion sampleClusterStore emptyStorage (1, 2) = some 4 ∧
      clusterMarkedDirty sampleClusterStore (1, 2) = false := by
  decide

/-- C6 (amended): for a reported attribute entry without an error, the
cluster's data version is set to the carried version and the cluster queued
for persistence (dirty) iff the incoming value carries a data version AND
the version-stripped value differs from the cached value; with an unchanged
value the ingestion leaves the store exactly as the cache lookup left it,
and with no carried version the stored data version is unchanged. -/
theorem C6_version_noted_iff_value_changed_and_version_carried (store : ClusterStore)
    (storage : ClusterPath → Option MTRDeviceClusterData) (path : AttributePath)
    (reportedValue : MTRObject) :
    (∀ ver, reportedDataVersion reportedValue = some ver →
      attributeDataValueEqual (some (dataValueWithoutDataVersion reportedValue))
          (cachedAttributeValueForPath store storage path).2 = false →
      observedClusterDataVersion
          (ingestReportedAttributeNoError store storage path reportedValue) storage
          (clusterPathOf path) = some ver ∧
        clusterMarkedDirty (ingestReportedAttributeNoError store storage path reportedValue)
          (clusterPathOf path) = true) ∧
      (∀ ver, reportedDataVersion reportedValue = some ver →
        attributeDataValueEqual (some (dataValueWithoutDataVersion reportedValue))
            (cachedAttributeValueForPath store storage path).2 = true →
        ingestReportedAttributeNoError store storage path reportedValue =
          (cachedAttributeValueForPath store storage path).1) ∧
      (reportedDataVersion reportedValue = none →
        observedClusterDataVersion
            (ingestReportedAttributeNoError store storage path reportedValue) storage
            (clusterPathOf path) =
          observedClusterDataVersion store storage (clusterPathOf path)) := by
  refine ⟨?_, ?_, ?_⟩
  · intro ver hver hchange
    have hres : ingestReportedAttributeNoError store storage path reportedValue =
        setCachedAttributeValue
          (noteDataVersion (cachedAttributeValueForPath store storage path).1 storage ver
            (clusterPathOf path)) storage
          (some (dataValueWithoutDataVersion reportedValue)) path := by
      simp [ingestReportedAttributeNoError, hver, hchange]
    rw [hres]
    obtain ⟨cd, hcd, hcdver⟩ := noteDataVersion_lookup
      (cachedAttributeValueForPath store storage path).1 storage ver (clusterPathOf path)
    constructor
    · rw [setCached_observed _ storage _ path (some cd) hcd]
      exact hcdver
    · exact setCached_some_marks_dirty _ storage _ path (some cd) hcd
  · intro ver hver heq
    simp [ingestReportedAttributeNoError, hver, heq]
  · intro hver
    have hfst := cachedAttributeValueForPath_fst store storage path
    have hidem := clusterDataForPath_idem store storage (clusterPathOf path)
    cases hc : attributeDataValueEqual (some reportedValue)
        (cachedAttributeValueForPath store storage path).2 with
    | true =>
      have hres : ingestReportedAttributeNoError store storage path reportedValue =
          (cachedAttributeValueForPath store storage path).1 := by
        simp [ingestReportedAttributeNoError, hver, hc]
      rw [hres, hfst]
      unfold observedClusterDataVersion
      rw [hidem]
    | false =>
      have hres : ingestReportedAttributeNoError store storage path reportedValue =
          setCachedAttributeValue (cachedAttributeValueForPath store storage path).1 storage
            (some reportedValue) path := by
        simp [ingestReportedAttributeNoError, hver, hc]
      rw [hres, hfst]
      rw [setCached_observed _ storage _ path
        (clusterDataForPath store storage (clusterPathOf path)).2 hidem]
      unfold observedClusterDataVersion
      cases (clusterDataForPath store storage (clusterPathOf path)).2 <;> rfl

/-- Concrete witness for
`C6_version_noted_iff_value_changed_and_version_carried`. -/
theorem C6_version_noted_witness :
    observedClusterDataVersion (ingestReportedAttributeNoError sampleClusterStore emptyStorage
        (1, 2, 3) (sampleReportedValueWithVersion 6 7)) emptyStorage (1, 2) = some 7 ∧
      clusterMarkedDirty (ingestReportedAttributeNoError sampleClusterStore emptyStorage
        (1, 2, 3) (sampleReportedValueWithVersion 6 7)) (1, 2) = true := by
  have h := C6_version_noted_iff_value_changed_and_version_carried sampleClusterStore
    emptyStorage (1, 2, 3) (sampleReportedValueWithVersion 6 7)
  exact h.1 7 (by decide) (by decide)

end MTRDeviceModel
